import Mathlib

/-!
Verification of the portal-gambit backend services against their
specification.  The Python services are shallowly embedded: Firestore
collections become association lists keyed by document id, each service
call is modelled at a single time instant (`now : Int`, epoch seconds),
and every fallible storage write takes an explicit `Bool` flag saying
whether the underlying store operation succeeds (the adapter layer
converts storage errors to boolean failure).
-/

namespace PortalGambit

/-- A Firestore collection: documents keyed by string id.  The list order
is insertion order; lookups return the first (unique) binding. -/
abbrev Coll (α : Type) := List (String × α)

/-- Document lookup (`BaseService.get_document`): the document at `k`, or
`none` when absent. -/
def collGet {α : Type} : Coll α → String → Option α
  | [], _ => none
  | p :: ps, k => if p.1 = k then some p.2 else collGet ps k

/-- Create-or-overwrite at key `k` (`BaseService.set_document` /
Python dict update semantics: replace in place, else append). -/
def upsert {α : Type} : Coll α → String → α → Coll α
  | [], k, v => [(k, v)]
  | p :: ps, k, v => if p.1 = k then (k, v) :: ps else p :: upsert ps k v

/-! ## Friend service data model (`models/friend.py`) -/

/-- Status enum `FriendRequestStatus`: pending / accepted / rejected. -/
inductive FriendRequestStatus where
  | pending
  | accepted
  | rejected
deriving DecidableEq, Repr

/-- The `FriendRequest` document. -/
structure FriendRequest where
  request_id : String
  sender_id : String
  receiver_id : String
  status : FriendRequestStatus
  created_at : Int
  updated_at : Int
  message : Option String
deriving DecidableEq, Repr

/-- The `FriendStatus` document (one direction of a mirrored friendship). -/
structure FriendStatus where
  user_id : String
  friend_id : String
  became_friends : Int
  games_played : Nat
  last_game : Option String
  last_interaction : Int
deriving DecidableEq, Repr

/-- Constructor defaults of `FriendStatus` (pydantic default factories),
at instant `now`. -/
def FriendStatus.make (user friend : String) (now : Int) : FriendStatus :=
  { user_id := user, friend_id := friend, became_friends := now,
    games_played := 0, last_game := none, last_interaction := now }

/-- The two collections owned by `FriendService`. -/
structure FriendDB where
  requests : Coll FriendRequest
  friends : Coll FriendStatus
deriving DecidableEq, Repr

/-- The query of `send_friend_request`: a pending request with the given
sender and receiver exists (`limit(1)` truthiness check). -/
def pendingBetween (db : FriendDB) (s r : String) : Bool :=
  db.requests.any fun p =>
    p.2.sender_id = s ∧ p.2.receiver_id = r ∧ p.2.status = .pending

/-- Operation `FriendService.send_friend_request`.  `freshId` is the generated
`req_{uuid4.hex}` id, `okSet` whether the storage write succeeds. -/
def sendFriendRequest (db : FriendDB) (sender_id receiver_id : String)
    (message : Option String) (freshId : String) (now : Int) (okSet : Bool) :
    Bool × FriendDB :=
  if sender_id = receiver_id then (false, db)
  else
    let status_key := sender_id ++ "_" ++ receiver_id
    if (collGet db.friends status_key).isSome then (false, db)
    else if pendingBetween db sender_id receiver_id ||
            pendingBetween db receiver_id sender_id then (false, db)
    else
      let request : FriendRequest :=
        { request_id := freshId, sender_id := sender_id,
          receiver_id := receiver_id, status := .pending,
          created_at := now, updated_at := now, message := message }
      if okSet then (true, { db with requests := upsert db.requests freshId request })
      else (false, db)

/-- Operation `FriendService.respond_to_request`.  `okUpdate` is the status-update
write, `okSet1`/`okSet2` the two mirrored `FriendStatus` writes. -/
def respondToRequest (db : FriendDB) (request_id : String) (accept : Bool)
    (now : Int) (okUpdate okSet1 okSet2 : Bool) : Bool × FriendDB :=
  match collGet db.requests request_id with
  | none => (false, db)
  | some request =>
    if request.status ≠ .pending then (false, db)
    else
      let status : FriendRequestStatus := if accept then .accepted else .rejected
      if ¬ okUpdate then (false, db)
      else
        let updated : FriendRequest := { request with status := status, updated_at := now }
        let db1 : FriendDB := { db with requests := upsert db.requests request_id updated }
        if accept then
          let friend_status1 := FriendStatus.make request.sender_id request.receiver_id now
          let friend_status2 := FriendStatus.make request.receiver_id request.sender_id now
          let status_key1 := request.sender_id ++ "_" ++ request.receiver_id
          let status_key2 := request.receiver_id ++ "_" ++ request.sender_id
          let db2 : FriendDB :=
            if okSet1 then { db1 with friends := upsert db1.friends status_key1 friend_status1 }
            else db1
          let db3 : FriendDB :=
            if okSet2 then { db2 with friends := upsert db2.friends status_key2 friend_status2 }
            else db2
          (okSet1 && okSet2, db3)
        else (true, db1)

/-! ## Profile and game-history data model
(`models/user_profile.py`, `models/game_history.py`) -/

/-- The `GameResult` enumeration. -/
inductive GameResult where
  | white_win
  | black_win
  | draw
  | abandoned
deriving DecidableEq, Repr

/-- The `time_control` dict: initial seconds plus increment seconds. -/
structure TimeControl where
  initial : Int
  increment : Int
deriving DecidableEq, Repr

/-- The `rating_change` dict; keys may be absent (code reads them with
`.get(color, 0)`). -/
structure RatingChange where
  white : Option Int
  black : Option Int
deriving DecidableEq, Repr

/-- The `GameHistory` document. -/
structure GameHistory where
  game_id : String
  white_player_id : String
  black_player_id : String
  start_time : Int
  end_time : Int
  result : GameResult
  winner_id : Option String
  moves : List String
  initial_position : String
  white_rating : Int
  black_rating : Int
  rating_change : RatingChange
  game_type : String
  time_control : TimeControl
deriving DecidableEq, Repr

/-- The `UserProfile` document (the opaque `preferences` map is unused by the
modelled operations and omitted). -/
structure UserProfile where
  uid : String
  username : String
  email : String
  display_name : Option String
  avatar_url : Option String
  rating : Int
  games_played : Int
  wins : Int
  losses : Int
  draws : Int
  created_at : Int
  last_active : Int
  friends : List String
  achievements : List String
deriving DecidableEq, Repr

/-- The field changes of `ProfileService.update_rating`: set the rating,
increment `games_played`, and increment exactly one of wins/losses/draws
according to the string under the result key of the game_result dict. -/
def applyRatingUpdate (p : UserProfile) (newRating : Int) (result : String) :
    UserProfile :=
  let p1 := { p with rating := newRating, games_played := p.games_played + 1 }
  if result = "win" then { p1 with wins := p1.wins + 1 }
  else if result = "loss" then { p1 with losses := p1.losses + 1 }
  else { p1 with draws := p1.draws + 1 }

/-- Operation `ProfileService.update_rating`.  A Firestore `update` on a missing
document raises, which the adapter converts to `false`; `ok` is the
storage-success flag. -/
def updateRating (profiles : Coll UserProfile) (uid : String) (newRating : Int)
    (result : String) (ok : Bool) : Bool × Coll UserProfile :=
  match collGet profiles uid with
  | none => (false, profiles)
  | some p =>
    if ok then (true, upsert profiles uid (applyRatingUpdate p newRating result))
    else (false, profiles)

/-- The collections touched by `HistoryService`. -/
structure HistoryDB where
  games : Coll GameHistory
  profiles : Coll UserProfile
deriving DecidableEq, Repr

/-- Operation `HistoryService.archive_game`.  `okSet` is the game write; `okWhite`
and `okBlack` are the two profile updates (whose results the code
ignores — it returns the archival success flag). -/
def archiveGame (db : HistoryDB) (game : GameHistory)
    (okSet okWhite okBlack : Bool) : Bool × HistoryDB :=
  if okSet then
    let games1 := upsert db.games game.game_id game
    let white_profile := collGet db.profiles game.white_player_id
    let black_profile := collGet db.profiles game.black_player_id
    let white_current_rating := match white_profile with
      | some p => p.rating
      | none => game.white_rating
    let black_current_rating := match black_profile with
      | some p => p.rating
      | none => game.black_rating
    let white_new_rating := white_current_rating + game.rating_change.white.getD 0
    let black_new_rating := black_current_rating + game.rating_change.black.getD 0
    let white_result := if game.result = .white_win then "win"
      else if game.result = .black_win then "loss" else "draw"
    let black_result := if game.result = .black_win then "win"
      else if game.result = .white_win then "loss" else "draw"
    let r1 := updateRating db.profiles game.white_player_id white_new_rating white_result okWhite
    let r2 := updateRating r1.2 game.black_player_id black_new_rating black_result okBlack
    (true, { games := games1, profiles := r2.2 })
  else (false, db)

/-- Result of `HistoryService.get_user_stats` (the Python stats dict). -/
structure UserStats where
  total_games : Nat
  wins : Nat
  losses : Nat
  draws : Nat
  white_games : Nat
  black_games : Nat
  rating_change : Int
  total_moves : Nat
  average_game_length : ℚ
deriving DecidableEq, Repr

/-- The zero-initialised stats dict. -/
def initStats : UserStats :=
  { total_games := 0, wins := 0, losses := 0, draws := 0, white_games := 0,
    black_games := 0, rating_change := 0, total_moves := 0,
    average_game_length := 0 }

/-- One loop iteration of `get_user_stats` over a game; the second
component accumulates `total_duration` (seconds). -/
def statsStep (user_id : String) (acc : UserStats × Int) (game : GameHistory) :
    UserStats × Int :=
  let s := acc.1
  let is_white := game.white_player_id = user_id
  let s := { s with total_games := s.total_games + 1 }
  let s :=
    if is_white then
      { s with white_games := s.white_games + 1,
               rating_change := s.rating_change + game.rating_change.white.getD 0 }
    else
      { s with black_games := s.black_games + 1,
               rating_change := s.rating_change + game.rating_change.black.getD 0 }
  let s := match game.result with
    | .white_win =>
        if is_white then { s with wins := s.wins + 1 }
        else { s with losses := s.losses + 1 }
    | .black_win =>
        if ¬ is_white then { s with wins := s.wins + 1 }
        else { s with losses := s.losses + 1 }
    | .draw => { s with draws := s.draws + 1 }
    | .abandoned => s
  let s := { s with total_moves := s.total_moves + game.moves.length }
  (s, acc.2 + (game.end_time - game.start_time))

/-- The two per-color queries of `get_user_stats` merged through the
deduplicating dict comprehension keyed by game id. -/
def queryUserGames (db : HistoryDB) (user_id : String) (start_date : Int) :
    List GameHistory :=
  let whiteGames := (db.games.map (·.2)).filter
    fun g => g.white_player_id = user_id ∧ g.end_time ≥ start_date
  let blackGames := (db.games.map (·.2)).filter
    fun g => g.black_player_id = user_id ∧ g.end_time ≥ start_date
  let deduped := (whiteGames ++ blackGames).foldl
    (fun acc g => upsert acc g.game_id g) []
  deduped.map (·.2)

/-- Operation `HistoryService.get_user_stats` (window is `days` before `now`). -/
def getUserStats (db : HistoryDB) (user_id : String) (days : Int) (now : Int) :
    UserStats :=
  let start_date := now - days * 86400
  let games := queryUserGames db user_id start_date
  let folded := games.foldl (statsStep user_id) (initStats, 0)
  if folded.1.total_games > 0 then
    { folded.1 with
      average_game_length := (folded.2 : ℚ) / (folded.1.total_games : ℚ) }
  else folded.1

/-- Stable insertion into a descending-sorted list: the new element goes
before the first strictly-smaller key, after equal keys already present
(Python `sorted(..., reverse=True)` is stable). -/
def insertDesc {α : Type} (key : α → Int) (a : α) : List α → List α
  | [] => [a]
  | b :: bs => if key b ≤ key a then a :: b :: bs else b :: insertDesc key a bs

/-- Stable descending sort by an integer key. -/
def sortByDesc {α : Type} (key : α → Int) : List α → List α
  | [] => []
  | a :: rest => insertDesc key a (sortByDesc key rest)

/-- The opening of a game: the first three moves joined with spaces, when
the game has at least three moves. -/
def openingKey (game : GameHistory) : Option String :=
  if game.moves.length ≥ 3 then some (String.intercalate " " (game.moves.take 3))
  else none

/-- A decisive result: `white_win` or `black_win` (excludes draws and
abandoned games). -/
def decisive (r : GameResult) : Bool := r = .white_win ∨ r = .black_win

/-- The openings dict of `get_popular_openings` — per opening key, the
pair (occurrence count, decisive-win count). -/
def tallyOpenings : List GameHistory → Coll (Nat × Nat) → Coll (Nat × Nat)
  | [], acc => acc
  | g :: gs, acc =>
    match openingKey g with
    | none => tallyOpenings gs acc
    | some k =>
      let cur := (collGet acc k).getD (0, 0)
      tallyOpenings gs
        (upsert acc k (cur.1 + 1, cur.2 + (if decisive g.result then 1 else 0)))

/-- One output entry of `get_popular_openings`. -/
structure OpeningStat where
  moves : String
  count : Nat
  wins : Nat
deriving DecidableEq, Repr

/-- Operation `HistoryService.get_popular_openings`: sample the 1000 most recent
games (ordered by `end_time` descending), tally openings, sort by count
descending, return at most `limit` entries. -/
def getPopularOpenings (db : HistoryDB) (limit : Nat) : List OpeningStat :=
  let results := (sortByDesc (fun g => g.end_time) (db.games.map (·.2))).take 1000
  let openings := tallyOpenings results []
  let popular := sortByDesc (fun s => (s.count : Int))
    (openings.map fun p => OpeningStat.mk p.1 p.2.1 p.2.2)
  popular.take limit

/-! ## Session tokens (`utils/jwt_utils.py`)
A token is modelled as its decoded payload plus the key it was signed
with and a well-formedness flag; claim values are JSON scalars. -/

/-- A JWT claim value. -/
inductive CVal where
  | str (s : String)
  | int (n : Int)
  | bool (b : Bool)
  | null
deriving DecidableEq, Repr

/-- A claims dictionary. -/
abbrev Claims := Coll CVal

/-- Python `dict.setdefault`: insert only when the key is absent. -/
def setdefault (c : Claims) (k : String) (v : CVal) : Claims :=
  if (collGet c k).isSome then c else c ++ [(k, v)]

/-- An encoded JWT: payload, signing key, and whether the token string is
structurally well formed. -/
structure Token where
  payload : Claims
  signingKey : String
  wellFormed : Bool
deriving DecidableEq, Repr

/-- Module constant `ACCESS_TOKEN_EXPIRE_MINUTES = 60`. -/
def ACCESS_TOKEN_EXPIRE_MINUTES : Int := 60

/-- Operation `create_access_token`: copy the data, set `exp` (now plus the delta,
default 60 minutes), set `iat` unless already present, sign. -/
def createAccessToken (data : Claims) (expires_delta : Option Int) (now : Int)
    (secretKey : String) : Token :=
  let expire := now + expires_delta.getD (ACCESS_TOKEN_EXPIRE_MINUTES * 60)
  let to_encode := upsert data "exp" (.int expire)
  let to_encode := setdefault to_encode "iat" (.int now)
  { payload := to_encode, signingKey := secretKey, wellFormed := true }

/-- Decoding `jose.jwt.decode` with `verify_aud` disabled: reject malformed
tokens, wrong signatures, ill-typed or expired `exp` claims; the
audience claim is never inspected. -/
def jwtDecode (t : Token) (secretKey : String) (now : Int) :
    Except String Claims :=
  if ¬ t.wellFormed then .error "malformed token"
  else if t.signingKey ≠ secretKey then .error "signature verification failed"
  else match collGet t.payload "exp" with
    | some (.int e) => if e < now then .error "token expired" else .ok t.payload
    | some _ => .error "invalid exp claim"
    | none => .ok t.payload

/-- An HTTP exception (status code plus detail). -/
structure HTTPErr where
  status_code : Nat
  detail : String
deriving DecidableEq, Repr

/-- Operation `verify_token`: decode, then require a `uid` claim; every failure is
converted to a 401 response. -/
def verifyToken (t : Token) (secretKey : String) (now : Int) :
    Except HTTPErr Claims :=
  match jwtDecode t secretKey now with
  | .ok payload =>
    if (collGet payload "uid").isSome then .ok payload
    else .error ⟨401, "Could not validate credentials: Missing uid claim in token payload."⟩
  | .error e => .error ⟨401, "Could not validate credentials: " ++ e⟩

/-- The identity-provider data consumed by `create_tokens_for_user`. -/
structure FirebaseUser where
  uid : String
  email : Option String
  email_verified : Option Bool
deriving DecidableEq, Repr

/-- The response of `create_tokens_for_user`. -/
structure TokenResponse where
  access_token : Token
  token_type : String
  expires_in : Int
deriving DecidableEq, Repr

/-- Operation `create_tokens_for_user`: extract uid/email/email_verified, issue an
access token with the default TTL, report `expires_in` in seconds. -/
def createTokensForUser (u : FirebaseUser) (now : Int) (secretKey : String) :
    TokenResponse :=
  let user_data : Claims :=
    [("uid", .str u.uid),
     ("email", u.email.elim CVal.null CVal.str),
     ("email_verified", .bool (u.email_verified.getD false))]
  { access_token := createAccessToken user_data none now secretKey,
    token_type := "bearer",
    expires_in := ACCESS_TOKEN_EXPIRE_MINUTES * 60 }

/-! ## Analytics service (`services/analytics_service.py`)
Only the `global_stats` entry of the cache collection is touched by the
modelled operation. -/

/-- An analytics document (written by `record_game_analytics`). -/
structure AnalyticsRecord where
  timestamp : Int
  game_id : String
  duration : ℚ
  total_moves : Nat
  result : GameResult
  white_player_id : String
  black_player_id : String
  rating_change : RatingChange
  game_type : String
  time_control : TimeControl
deriving DecidableEq, Repr

/-- The `global_stats` document. -/
structure GlobalStats where
  total_games : Nat
  white_win_rate : ℚ
  average_game_duration : ℚ
  average_moves_per_game : ℚ
  popular_time_controls : Coll Nat
  popular_game_types : Coll Nat
  last_updated : Int
deriving DecidableEq, Repr

/-- The analytics collection plus the `global_stats` cache document. -/
structure AnalyticsDB where
  records : List AnalyticsRecord
  globalCache : Option GlobalStats
deriving DecidableEq, Repr

/-- Time-control histogram key `"{initial}/{increment}"`. -/
def tcKey (tc : TimeControl) : String :=
  toString tc.initial ++ "/" ++ toString tc.increment

/-- One iteration of the aggregation loop of `get_global_stats`:
accumulates white wins, total duration, total moves, and the two
popularity histograms. -/
def globalStep (acc : Nat × ℚ × Nat × Coll Nat × Coll Nat)
    (game : AnalyticsRecord) : Nat × ℚ × Nat × Coll Nat × Coll Nat :=
  let tcs := acc.2.2.2.1
  let gts := acc.2.2.2.2
  ( acc.1 + (if game.result = .white_win then 1 else 0),
    acc.2.1 + game.duration,
    acc.2.2.1 + game.total_moves,
    upsert tcs (tcKey game.time_control)
      ((collGet tcs (tcKey game.time_control)).getD 0 + 1),
    upsert gts game.game_type ((collGet gts game.game_type).getD 0 + 1) )

/-- The aggregation loop of `get_global_stats`. -/
def globalTally (results : List AnalyticsRecord) :
    Nat × ℚ × Nat × Coll Nat × Coll Nat :=
  results.foldl globalStep (0, 0, 0, [], [])

/-- The query sample of `get_global_stats`: up to 10,000 most-recent
analytics records ordered by timestamp descending. -/
def globalSample (db : AnalyticsDB) : List AnalyticsRecord :=
  (sortByDesc (fun r => r.timestamp) db.records).take 10000

/-- The recompute-and-cache path of `get_global_stats` (cache absent or
stale).  With an empty sample the zeroed stats are returned before the
cache write is reached. -/
def computeGlobalStats (db : AnalyticsDB) (now : Int) (okSet : Bool) :
    GlobalStats × AnalyticsDB :=
  let results := globalSample db
  let stats0 : GlobalStats :=
    { total_games := results.length, white_win_rate := 0,
      average_game_duration := 0, average_moves_per_game := 0,
      popular_time_controls := [], popular_game_types := [],
      last_updated := now }
  if results.isEmpty then (stats0, db)
  else
    let t := globalTally results
    let stats : GlobalStats :=
      { stats0 with
        white_win_rate := (t.1 : ℚ) / (results.length : ℚ),
        average_game_duration := t.2.1 / (results.length : ℚ),
        average_moves_per_game := (t.2.2.1 : ℚ) / (results.length : ℚ),
        popular_time_controls :=
          (sortByDesc (fun p => (p.2 : Int)) t.2.2.2.1).take 5,
        popular_game_types :=
          (sortByDesc (fun p => (p.2 : Int)) t.2.2.2.2).take 5 }
    (stats, if okSet then { db with globalCache := some stats } else db)

/-- Operation `AnalyticsService.get_global_stats`: serve the cached document while
it is less than one hour old, otherwise recompute. -/
def getGlobalStats (db : AnalyticsDB) (now : Int) (okSet : Bool) :
    GlobalStats × AnalyticsDB :=
  match db.globalCache with
  | some cached =>
    if now - cached.last_updated < 3600 then (cached, db)
    else computeGlobalStats db now okSet
  | none => computeGlobalStats db now okSet

/-- Occurrence count stored in an openings dict for key `k` (0 when
absent). -/
def getCount (acc : Coll (Nat × Nat)) (k : String) : Nat :=
  ((collGet acc k).getD (0, 0)).1

/-- Decisive-win count stored in an openings dict for key `k` (0 when
absent). -/
def getWins (acc : Coll (Nat × Nat)) (k : String) : Nat :=
  ((collGet acc k).getD (0, 0)).2

/-- The invariant of the `get_user_stats` counters claimed by the spec. -/
def StatsInv (s : UserStats) : Prop :=
  s.wins + s.losses + s.draws ≤ s.total_games ∧
  s.white_games + s.black_games = s.total_games

/-! ## Concrete fixtures used by witnesses and counterexamples -/

/-- A pending request from alice to bob. -/
def reqAB : FriendRequest :=
  { request_id := "r1", sender_id := "alice", receiver_id := "bob",
    status := .pending, created_at := 0, updated_at := 0, message := none }

/-- A store holding only `reqAB`. -/
def dbAB : FriendDB := { requests := [("r1", reqAB)], friends := [] }

/-- A store with a friendship document recorded only in the bob→alice
direction and no requests. -/
def dbOneWay : FriendDB :=
  { requests := [], friends := [("bob_alice", FriendStatus.make "bob" "alice" 0)] }

/-- A fresh profile at the default rating 1200, for uid/username/email. -/
def freshProfile (uid username email : String) : UserProfile :=
  { uid := uid, username := username, email := email, display_name := none,
    avatar_url := none, rating := 1200, games_played := 0, wins := 0,
    losses := 0, draws := 0, created_at := 0, last_active := 0, friends := [],
    achievements := [] }

/-- A finished game between players A (white) and B (black): white wins,
rating change +8 / −8. -/
def gameAB : GameHistory :=
  { game_id := "g1", white_player_id := "A", black_player_id := "B",
    start_time := 0, end_time := 600, result := .white_win,
    winner_id := some "A", moves := ["e4", "e5", "Nf3"],
    initial_position := "standard", white_rating := 1200,
    black_rating := 1200, rating_change := { white := some 8, black := some (-8) },
    game_type := "portal_gambit", time_control := { initial := 600, increment := 5 } }

/-- History store with profiles for A and B (both rating 1200) and no
games. -/
def dbHist : HistoryDB :=
  { games := [],
    profiles := [("A", freshProfile "A" "alice" "a@example.com"),
                 ("B", freshProfile "B" "bob" "b@example.com")] }

/-- A small game template for the openings sample: id, end time, first
three moves, result. -/
def mkGame (id : String) (endTime : Int) (moves : List String)
    (result : GameResult) : GameHistory :=
  { game_id := id, white_player_id := "A", black_player_id := "B",
    start_time := 0, end_time := endTime, result := result,
    winner_id := none, moves := moves, initial_position := "standard",
    white_rating := 1200, black_rating := 1200,
    rating_change := { white := some 0, black := some 0 },
    game_type := "portal_gambit", time_control := { initial := 600, increment := 5 } }

/-- Openings sample: the opening "e4 e5 Nf3" occurs three times (two
decisive, one draw), "d4 d5 c4" once (abandoned). -/
def dbOpenings : HistoryDB :=
  { games :=
      [("g1", mkGame "g1" 40 ["e4", "e5", "Nf3"] .white_win),
       ("g2", mkGame "g2" 30 ["d4", "d5", "c4"] .abandoned),
       ("g3", mkGame "g3" 20 ["e4", "e5", "Nf3"] .draw),
       ("g4", mkGame "g4" 10 ["e4", "e5", "Nf3"] .black_win)],
    profiles := [] }

/-- A stale cached `global_stats` document (written at time 0). -/
def staleStats : GlobalStats :=
  { total_games := 7, white_win_rate := 0, average_game_duration := 0,
    average_moves_per_game := 0, popular_time_controls := [],
    popular_game_types := [], last_updated := 0 }

/-- An analytics store with no records and the stale cache entry. -/
def dbStale : AnalyticsDB := { records := [], globalCache := some staleStats }

/-- A concrete signed token carrying a uid claim, expiring at 50. -/
def tokUid : Token :=
  { payload := [("uid", .str "u"), ("exp", .int 50)], signingKey := "k",
    wellFormed := true }

/-! ## Infrastructure lemmas -/

theorem collGet_upsert_same {α : Type} (c : Coll α) (k : String) (v : α) :
    collGet (upsert c k v) k = some v := by
  induction c with
  | nil => simp [upsert, collGet]
  | cons p ps ih =>
    by_cases h : p.1 = k
    · simp [upsert, collGet, h]
    · simp [upsert, collGet, h, ih]

theorem collGet_upsert_other {α : Type} (c : Coll α) (k k₂ : String) (v : α)
    (hne : k₂ ≠ k) : collGet (upsert c k v) k₂ = collGet c k₂ := by
  induction c with
  | nil => simp [upsert, collGet, Ne.symm hne]
  | cons p ps ih =>
    by_cases h : p.1 = k
    · simp [upsert, collGet, h, Ne.symm hne]
    · by_cases h2 : p.1 = k₂ <;> simp [upsert, collGet, h, h2, hne, ih]

theorem mem_insertDesc {α : Type} (key : α → Int) (a x : α) (l : List α) :
    x ∈ insertDesc key a l ↔ x = a ∨ x ∈ l := by
  induction l with
  | nil => simp [insertDesc]
  | cons b bs ih =>
    by_cases h : key b ≤ key a <;> simp [insertDesc, h, ih] <;> tauto

theorem pairwise_insertDesc {α : Type} (key : α → Int) (a : α) (l : List α)
    (hl : List.Pairwise (fun x y => key y ≤ key x) l) :
    List.Pairwise (fun x y => key y ≤ key x) (insertDesc key a l) := by
  induction l with
  | nil => simp [insertDesc]
  | cons b bs ih =>
    rcases List.pairwise_cons.mp hl with ⟨hb, hbs⟩
    by_cases h : key b ≤ key a
    · simp only [insertDesc, if_pos h]
      refine List.pairwise_cons.mpr ⟨?_, hl⟩
      intro c hc
      rcases List.mem_cons.mp hc with rfl | hc
      · exact h
      · exact le_trans (hb c hc) h
    · simp only [insertDesc, if_neg h]
      refine List.pairwise_cons.mpr ⟨?_, ih hbs⟩
      intro c hc
      rcases (mem_insertDesc key a c bs).mp hc with rfl | hc
      · exact le_of_lt (lt_of_not_le h)
      · exact hb c hc

theorem pairwise_sortByDesc {α : Type} (key : α → Int) (l : List α) :
    List.Pairwise (fun x y => key y ≤ key x) (sortByDesc key l) := by
  induction l with
  | nil => exact List.Pairwise.nil
  | cons a rest ih => exact pairwise_insertDesc key a _ ih

theorem perm_insertDesc {α : Type} (key : α → Int) (a : α) (l : List α) :
    (insertDesc key a l).Perm (a :: l) := by
  induction l with
  | nil => simp [insertDesc]
  | cons b bs ih =>
    by_cases h : key b ≤ key a
    · simp [insertDesc, h]
    · simp only [insertDesc, h, if_neg]
      exact (ih.cons b).trans (List.Perm.swap a b bs)

theorem perm_sortByDesc {α : Type} (key : α → Int) (l : List α) :
    (sortByDesc key l).Perm l := by
  induction l with
  | nil => exact List.Perm.refl []
  | cons a rest ih =>
    exact (perm_insertDesc key a (sortByDesc key rest)).trans (ih.cons a)

theorem tallyOpenings_spec (gs : List GameHistory) :
    ∀ (acc : Coll (Nat × Nat)) (k : String),
      getCount (tallyOpenings gs acc) k =
        getCount acc k + gs.countP (fun g => openingKey g = some k) ∧
      getWins (tallyOpenings gs acc) k =
        getWins acc k +
          gs.countP (fun g => openingKey g = some k ∧ decisive g.result) := by
  induction gs with
  | nil => intro acc k; simp [tallyOpenings]
  | cons g gs ih =>
    intro acc k
    rcases hg : openingKey g with _ | k₂
    · have hcount : (fun g => decide (openingKey g = some k)) g = false := by
        simp [hg]
      have hwins : (fun g => decide (openingKey g = some k ∧ decisive g.result)) g = false := by
        simp [hg]
      simp only [tallyOpenings, hg, List.countP_cons, hcount, hwins]
      simpa using ih acc k
    · by_cases hk : k₂ = k
      · subst hk
        have h1 := (ih (upsert acc k₂
          (((collGet acc k₂).getD (0, 0)).1 + 1,
            ((collGet acc k₂).getD (0, 0)).2 +
              (if decisive g.result then 1 else 0))) k₂)
        simp only [tallyOpenings, hg, List.countP_cons]
        rw [h1.1, h1.2]
        constructor
        · simp [getCount, collGet_upsert_same, hg]
          omega
        · by_cases hd : decisive g.result <;>
            simp [getWins, collGet_upsert_same, hg, hd] <;> omega
      · have h1 := (ih (upsert acc k₂
          (((collGet acc k₂).getD (0, 0)).1 + 1,
            ((collGet acc k₂).getD (0, 0)).2 +
              (if decisive g.result then 1 else 0))) k)
        have hcount : (fun g => decide (openingKey g = some k)) g = false := by
          simp [hg, hk]
        have hwins : (fun g => decide (openingKey g = some k ∧ decisive g.result)) g = false := by
          simp [hg]
          tauto
        simp only [tallyOpenings, hg, List.countP_cons, hcount, hwins]
        rw [h1.1, h1.2]
        unfold getCount getWins
        rw [collGet_upsert_other acc k₂ k
          (((collGet acc k₂).getD (0, 0)).1 + 1,
            ((collGet acc k₂).getD (0, 0)).2 + if decisive g.result then 1 else 0)
          (Ne.symm hk)]
        simp [hg, hk]

/-! ## Friend service lemmas -/

theorem respond_absent (db : FriendDB) (request_id : String) (accept : Bool)
    (now : Int) (okU ok1 ok2 : Bool)
    (hreq : collGet db.requests request_id = none) :
    respondToRequest db request_id accept now okU ok1 ok2 = (false, db) := by
  simp [respondToRequest, hreq]

theorem respond_notPending (db : FriendDB) (request_id : String) (accept : Bool)
    (now : Int) (okU ok1 ok2 : Bool) (req : FriendRequest)
    (hreq : collGet db.requests request_id = some req)
    (hnp : req.status ≠ .pending) :
    respondToRequest db request_id accept now okU ok1 ok2 = (false, db) := by
  simp [respondToRequest, hreq, hnp]

theorem respond_noUpdate (db : FriendDB) (request_id : String) (accept : Bool)
    (now : Int) (ok1 ok2 : Bool) (req : FriendRequest)
    (hreq : collGet db.requests request_id = some req)
    (hpend : req.status = .pending) :
    respondToRequest db request_id accept now false ok1 ok2 = (false, db) := by
  simp [respondToRequest, hreq, hpend]

theorem respond_reject_state (db : FriendDB) (request_id : String)
    (now : Int) (ok1 ok2 : Bool) (req : FriendRequest)
    (hreq : collGet db.requests request_id = some req)
    (hpend : req.status = .pending) :
    respondToRequest db request_id false now true ok1 ok2 =
      (true, { db with requests := upsert db.requests request_id ({ req with
          status := .rejected, updated_at := now }) }) := by
  simp [respondToRequest, hreq, hpend]

theorem respond_accept_state (db : FriendDB) (request_id : String)
    (now : Int) (ok1 ok2 : Bool) (req : FriendRequest)
    (hreq : collGet db.requests request_id = some req)
    (hpend : req.status = .pending) :
    respondToRequest db request_id true now true ok1 ok2 =
      (ok1 && ok2,
       { requests := upsert db.requests request_id ({ req with
           status := .accepted, updated_at := now }),
         friends :=
           (fun f1 => if ok2 then upsert f1
               (req.receiver_id ++ "_" ++ req.sender_id)
               (FriendStatus.make req.receiver_id req.sender_id now) else f1)
             (if ok1 then upsert db.friends
                 (req.sender_id ++ "_" ++ req.receiver_id)
                 (FriendStatus.make req.sender_id req.receiver_id now)
              else db.friends) }) := by
  cases ok1 <;> cases ok2 <;> simp [respondToRequest, hreq, hpend]

theorem respond_lookup_updated (db : FriendDB) (request_id : String)
    (accept : Bool) (now : Int) (ok1 ok2 : Bool) (req : FriendRequest)
    (hreq : collGet db.requests request_id = some req)
    (hpend : req.status = .pending) :
    collGet (respondToRequest db request_id accept now true ok1 ok2).2.requests request_id =
      some ({ req with
              status := if accept then .accepted else .rejected,
              updated_at := now }) := by
  cases accept
  · rw [respond_reject_state db request_id now ok1 ok2 req hreq hpend]
    simp [collGet_upsert_same]
  · rw [respond_accept_state db request_id now ok1 ok2 req hreq hpend]
    simp [collGet_upsert_same]

theorem respond_preserves_other (db : FriendDB) (request_id : String)
    (accept : Bool) (now : Int) (okU ok1 ok2 : Bool) (rid : String)
    (hne : rid ≠ request_id) :
    collGet (respondToRequest db request_id accept now okU ok1 ok2).2.requests rid =
      collGet db.requests rid := by
  rcases h : collGet db.requests request_id with _ | req
  · simp [respondToRequest, h]
  · by_cases hp : req.status = .pending
    · cases okU
      · simp [respondToRequest, h, hp]
      · cases accept
        · rw [respond_reject_state db request_id now ok1 ok2 req h hp]
          simp [collGet_upsert_other _ _ _ _ hne]
        · rw [respond_accept_state db request_id now ok1 ok2 req h hp]
          simp [collGet_upsert_other _ _ _ _ hne]
    · simp [respondToRequest, h, hp]

theorem send_preserves_other (db : FriendDB) (sender receiver : String)
    (message : Option String) (freshId : String) (now : Int) (ok : Bool)
    (rid : String) (hne : rid ≠ freshId) :
    collGet (sendFriendRequest db sender receiver message freshId now ok).2.requests rid =
      collGet db.requests rid := by
  simp only [sendFriendRequest]
  split_ifs <;> simp [collGet_upsert_other _ _ _ _ hne]

/-! ## Claim theorems -/

/-- C1 (counterexample): a `FriendStatus` document between the two
parties exists in the receiver→sender direction only (key `"bob_alice"`),
no request is pending, yet `send_friend_request("alice", "bob")` returns
true and creates a request — refuting the claimed "active friendship …
in either direction" failure condition. -/
theorem c1_counterexample :
    collGet dbOneWay.friends "bob_alice" = some (FriendStatus.make "bob" "alice" 0) ∧
    (sendFriendRequest dbOneWay "alice" "bob" none "req_1" 0 true).1 = true := by
  constructor <;> decide

/-- C1 (amended): `send_friend_request` returns false and leaves the
store unchanged when sender equals receiver, when a `FriendStatus`
document keyed sender_receiver (the sender→receiver direction only)
exists, or when a pending request exists in either direction; otherwise,
with a successful write, it creates a new `FriendRequest` under the fresh
id with status pending. -/
theorem c1_send_friend_request (db : FriendDB) (sender receiver : String)
    (message : Option String) (freshId : String) (now : Int) :
    (sender = receiver →
      ∀ ok, sendFriendRequest db sender receiver message freshId now ok = (false, db)) ∧
    ((collGet db.friends (sender ++ "_" ++ receiver)).isSome →
      ∀ ok, sendFriendRequest db sender receiver message freshId now ok = (false, db)) ∧
    ((pendingBetween db sender receiver || pendingBetween db receiver sender) = true →
      ∀ ok, sendFriendRequest db sender receiver message freshId now ok = (false, db)) ∧
    (sender ≠ receiver →
      collGet db.friends (sender ++ "_" ++ receiver) = none →
      pendingBetween db sender receiver = false →
      pendingBetween db receiver sender = false →
      sendFriendRequest db sender receiver message freshId now true =
        (true, { db with requests := upsert db.requests freshId ({
          request_id := freshId, sender_id := sender, receiver_id := receiver,
          status := .pending, created_at := now, updated_at := now,
          message := message }) }) ∧
      collGet (sendFriendRequest db sender receiver message freshId now true).2.requests freshId =
        some { request_id := freshId, sender_id := sender, receiver_id := receiver,
               status := .pending, created_at := now, updated_at := now,
               message := message }) := by
  refine ⟨?_, ?_, ?_, ?_⟩
  · intro h ok
    simp [sendFriendRequest, h]
  · intro h ok
    by_cases hs : sender = receiver
    · simp [sendFriendRequest, hs]
    · simp [sendFriendRequest, hs, h]
  · intro h ok
    by_cases hs : sender = receiver
    · simp [sendFriendRequest, hs]
    · by_cases hf : (collGet db.friends (sender ++ "_" ++ receiver)).isSome
      · simp [sendFriendRequest, hs, hf]
      · simp [sendFriendRequest, hs, hf, h]
  · intro hs hf h1 h2
    refine ⟨?_, ?_⟩
    · simp [sendFriendRequest, hs, hf, h1, h2]
    · simp [sendFriendRequest, hs, hf, h1, h2, collGet_upsert_same]

/-- C1 witness: a fresh pair with an empty store; the request is created
with status pending. -/
theorem c1_witness :
    (sendFriendRequest (FriendDB.mk [] []) "alice" "bob" none "req_1" 7 true).1 = true ∧
    collGet (sendFriendRequest (FriendDB.mk [] [])
        "alice" "bob" none "req_1" 7 true).2.requests "req_1" =
      some { request_id := "req_1", sender_id := "alice", receiver_id := "bob",
             status := .pending, created_at := 7, updated_at := 7,
             message := none } := by
  have h := (c1_send_friend_request (FriendDB.mk [] []) "alice" "bob" none "req_1" 7).2.2.2
    (by decide) (by decide) (by decide) (by decide)
  exact ⟨by rw [h.1], h.2⟩

/-- C2: accepting a pending request from A to B with all storage writes
succeeding returns true and creates both mirrored `FriendStatus`
documents (keys A_B and B_A) with equal `became_friends` timestamps;
with any combination of write outcomes, the call returns true only when
the status update and both document creations succeeded.  (The composite
keys are distinct whenever neither uid embeds the other around an
underscore.) -/
theorem c2_accept_creates_mirrored (db : FriendDB) (request_id : String)
    (now : Int) (req : FriendRequest)
    (hreq : collGet db.requests request_id = some req)
    (hpend : req.status = .pending)
    (hkeys : req.sender_id ++ "_" ++ req.receiver_id ≠
             req.receiver_id ++ "_" ++ req.sender_id) :
    ((respondToRequest db request_id true now true true true).1 = true ∧
     collGet (respondToRequest db request_id true now true true true).2.friends
         (req.sender_id ++ "_" ++ req.receiver_id) =
       some (FriendStatus.make req.sender_id req.receiver_id now) ∧
     collGet (respondToRequest db request_id true now true true true).2.friends
         (req.receiver_id ++ "_" ++ req.sender_id) =
       some (FriendStatus.make req.receiver_id req.sender_id now) ∧
     (FriendStatus.make req.sender_id req.receiver_id now).became_friends =
       (FriendStatus.make req.receiver_id req.sender_id now).became_friends) ∧
    (∀ okU ok1 ok2,
      (respondToRequest db request_id true now okU ok1 ok2).1 = true →
      okU = true ∧ ok1 = true ∧ ok2 = true) := by
  constructor
  · rw [respond_accept_state db request_id now true true req hreq hpend]
    refine ⟨rfl, ?_, ?_, rfl⟩ <;>
      simp [collGet_upsert_same, collGet_upsert_other _ _ _ _ hkeys]
  · intro okU ok1 ok2 h
    cases okU
    · rw [respond_noUpdate db request_id true now ok1 ok2 req hreq hpend] at h
      exact absurd h (by simp)
    · rw [respond_accept_state db request_id now ok1 ok2 req hreq hpend] at h
      cases ok1 <;> cases ok2 <;> simp_all

/-- C2 witness: a concrete pending request from alice to bob, accepted at
time 5. -/
theorem c2_witness :
    ((respondToRequest dbAB "r1" true 5 true true true).1 = true ∧
     collGet (respondToRequest dbAB "r1" true 5 true true true).2.friends
         ("alice" ++ "_" ++ "bob") = some (FriendStatus.make "alice" "bob" 5) ∧
     collGet (respondToRequest dbAB "r1" true 5 true true true).2.friends
         ("bob" ++ "_" ++ "alice") = some (FriendStatus.make "bob" "alice" 5) ∧
     (FriendStatus.make "alice" "bob" 5).became_friends =
       (FriendStatus.make "bob" "alice" 5).became_friends) := by
  exact (c2_accept_creates_mirrored dbAB "r1" 5 reqAB (by decide) rfl (by decide)).1

/-- C3: responding to a missing or non-pending request fails and leaves
the store unchanged; a successful respond moves the status from pending
to accepted (on accept) or rejected (on reject), both non-pending; these
states are terminal: every later respond on the same id fails, and
neither a respond nor a send with a fresh id ever returns an existing
non-pending request to pending. -/
theorem c3_pending_terminal (db : FriendDB) (request_id : String)
    (accept : Bool) (now : Int) (okU ok1 ok2 : Bool) :
    (collGet db.requests request_id = none →
      respondToRequest db request_id accept now okU ok1 ok2 = (false, db)) ∧
    (∀ req, collGet db.requests request_id = some req → req.status ≠ .pending →
      respondToRequest db request_id accept now okU ok1 ok2 = (false, db)) ∧
    (∀ req, collGet db.requests request_id = some req → req.status = .pending →
      (respondToRequest db request_id accept now okU ok1 ok2).1 = true →
      collGet (respondToRequest db request_id accept now okU ok1 ok2).2.requests request_id =
        some ({ req with
                status := if accept then .accepted else .rejected,
                updated_at := now }) ∧
      (if accept then FriendRequestStatus.accepted else FriendRequestStatus.rejected) ≠
        .pending) ∧
    ((respondToRequest db request_id accept now okU ok1 ok2).1 = true →
      ∀ a2 n2 u2 x2 y2,
        (respondToRequest (respondToRequest db request_id accept now okU ok1 ok2).2
          request_id a2 n2 u2 x2 y2).1 = false) ∧
    (∀ rid req2, collGet db.requests rid = some req2 → req2.status ≠ .pending →
      ∃ req3,
        collGet (respondToRequest db request_id accept now okU ok1 ok2).2.requests rid =
          some req3 ∧ req3.status ≠ .pending) ∧
    (∀ sender receiver message freshId ok rid req2,
      collGet db.requests freshId = none →
      collGet db.requests rid = some req2 → req2.status ≠ .pending →
      ∃ req3,
        collGet (sendFriendRequest db sender receiver message freshId now ok).2.requests rid =
          some req3 ∧ req3.status ≠ .pending) := by
  have hstat : (if accept then FriendRequestStatus.accepted else FriendRequestStatus.rejected) ≠
      FriendRequestStatus.pending := by
    cases accept <;> simp
  refine ⟨?_, ?_, ?_, ?_, ?_, ?_⟩
  · intro h
    exact respond_absent db request_id accept now okU ok1 ok2 h
  · intro req h hnp
    exact respond_notPending db request_id accept now okU ok1 ok2 req h hnp
  · intro req h hp hsucc
    cases okU
    · rw [respond_noUpdate db request_id accept now ok1 ok2 req h hp] at hsucc
      exact absurd hsucc (by simp)
    · exact ⟨respond_lookup_updated db request_id accept now ok1 ok2 req h hp, hstat⟩
  · intro hsucc a2 n2 u2 x2 y2
    rcases h : collGet db.requests request_id with _ | req
    · rw [respond_absent db request_id accept now okU ok1 ok2 h] at hsucc
      exact absurd hsucc (by simp)
    · by_cases hp : req.status = .pending
      · cases okU
        · rw [respond_noUpdate db request_id accept now ok1 ok2 req h hp] at hsucc
          exact absurd hsucc (by simp)
        · have hl := respond_lookup_updated db request_id accept now ok1 ok2 req h hp
          rw [respond_notPending _ request_id a2 n2 u2 x2 y2 _ hl (by simpa using hstat)]
      · rw [respond_notPending db request_id accept now okU ok1 ok2 req h hp] at hsucc
        exact absurd hsucc (by simp)
  · intro rid req2 h2 hnp2
    by_cases hne : rid = request_id
    · subst hne
      rcases h : collGet db.requests rid with _ | req
      · rw [h] at h2
        exact absurd h2 (by simp)

      · rw [h] at h2
        injection h2 with h2e
        subst h2e
        rw [respond_notPending db rid accept now okU ok1 ok2 req h hnp2]
        exact ⟨req, h, hnp2⟩
    · rw [respond_preserves_other db request_id accept now okU ok1 ok2 rid hne]
      exact ⟨req2, h2, hnp2⟩
  · intro sender receiver message freshId ok rid req2 hfresh h2 hnp2
    have hne : rid ≠ freshId := by
      intro e
      subst e
      rw [hfresh] at h2
      exact absurd h2 (by simp)
    rw [send_preserves_other db sender receiver message freshId now ok rid hne]
    exact ⟨req2, h2, hnp2⟩

/-- C3 witness: accepting the concrete pending request succeeds and
leaves it accepted; responding again fails. -/
theorem c3_witness :
    collGet (respondToRequest dbAB "r1" true 5 true true true).2.requests "r1" =
      some ({ reqAB with
              status := if true then .accepted else .rejected,
              updated_at := 5 }) ∧
    (respondToRequest (respondToRequest dbAB "r1" true 5 true true true).2
      "r1" false 9 true true true).1 = false := by
  have h := c3_pending_terminal dbAB "r1" true 5 true true true
  exact ⟨(h.2.2.1 reqAB (by decide) rfl (by decide)).1,
         h.2.2.2.1 (by decide) false 9 true true true⟩

/-- C9: accepting a pending request when the status update succeeds but a
mirrored `FriendStatus` write fails returns false, yet the request is
left in status accepted (not restored to pending), the store differs
from the pre-call store at the request id, and every later respond on
the same id fails. -/
theorem c9_partial_accept (db : FriendDB) (request_id : String) (now : Int)
    (ok1 ok2 : Bool) (req : FriendRequest)
    (hreq : collGet db.requests request_id = some req)
    (hpend : req.status = .pending)
    (hfail : ok1 = false ∨ ok2 = false) :
    (respondToRequest db request_id true now true ok1 ok2).1 = false ∧
    collGet (respondToRequest db request_id true now true ok1 ok2).2.requests request_id =
      some ({ req with status := .accepted, updated_at := now }) ∧
    collGet (respondToRequest db request_id true now true ok1 ok2).2.requests request_id ≠
      collGet db.requests request_id ∧
    (∀ a2 n2 u2 x2 y2,
      (respondToRequest (respondToRequest db request_id true now true ok1 ok2).2
        request_id a2 n2 u2 x2 y2).1 = false) := by
  have hl := respond_lookup_updated db request_id true now ok1 ok2 req hreq hpend
  simp only [if_pos] at hl
  refine ⟨?_, hl, ?_, ?_⟩
  · rw [respond_accept_state db request_id now ok1 ok2 req hreq hpend]
    rcases hfail with hf | hf <;> simp [hf]
  · rw [hl, hreq]
    intro he
    injection he with he2
    have := congrArg FriendRequest.status he2
    simp [hpend] at this
  · intro a2 n2 u2 x2 y2
    rw [respond_notPending _ request_id a2 n2 u2 x2 y2 _ hl (by simp)]

/-- C9 witness: the concrete pending request, accepted with the second
mirrored write failing. -/
theorem c9_witness :
    (respondToRequest dbAB "r1" true 5 true true false).1 = false ∧
    collGet (respondToRequest dbAB "r1" true 5 true true false).2.requests "r1" =
      some ({ reqAB with status := .accepted, updated_at := 5 }) ∧
    (respondToRequest (respondToRequest dbAB "r1" true 5 true true false).2
      "r1" true 9 true true true).1 = false := by
  have h := c9_partial_accept dbAB "r1" 5 true false reqAB (by decide) rfl (Or.inr rfl)
  exact ⟨h.1, h.2.1, h.2.2.2 true 9 true true true⟩

theorem statsStep_inv (user_id : String) (acc : UserStats × Int)
    (g : GameHistory) (h : StatsInv acc.1) : StatsInv (statsStep user_id acc g).1 := by
  obtain ⟨h1, h2⟩ := h
  rcases hres : g.result <;>
    by_cases hw : g.white_player_id = user_id <;>
      simp [statsStep, StatsInv, hw, hres] <;> omega

theorem statsFold_inv (user_id : String) (l : List GameHistory) :
    ∀ acc : UserStats × Int, StatsInv acc.1 →
      StatsInv (l.foldl (statsStep user_id) acc).1 := by
  induction l with
  | nil => intro acc h; simpa using h
  | cons g gs ih => intro acc h; exact ih _ (statsStep_inv user_id acc g h)

/-- C4: when the game write succeeds and both players have profiles,
`archive_game` returns true, stores the game, and updates both profiles:
new rating = current profile rating + rating_change for the color,
games_played + 1, and exactly one of wins/losses/draws incremented
according to the result (white_win: white win / black loss; black_win
reversed; draw and abandoned: both draws). -/
theorem c4_archive_game_updates_profiles (db : HistoryDB) (game : GameHistory)
    (pw pb : UserProfile)
    (hw : collGet db.profiles game.white_player_id = some pw)
    (hb : collGet db.profiles game.black_player_id = some pb)
    (hne : game.white_player_id ≠ game.black_player_id) :
    (archiveGame db game true true true).1 = true ∧
    collGet (archiveGame db game true true true).2.games game.game_id = some game ∧
    ∃ w2 b2 : UserProfile,
      collGet (archiveGame db game true true true).2.profiles game.white_player_id = some w2 ∧
      collGet (archiveGame db game true true true).2.profiles game.black_player_id = some b2 ∧
      w2.rating = pw.rating + game.rating_change.white.getD 0 ∧
      w2.games_played = pw.games_played + 1 ∧
      w2.wins = pw.wins + (if game.result = .white_win then 1 else 0) ∧
      w2.losses = pw.losses + (if game.result = .black_win then 1 else 0) ∧
      w2.draws = pw.draws +
        (if game.result = .white_win ∨ game.result = .black_win then 0 else 1) ∧
      b2.rating = pb.rating + game.rating_change.black.getD 0 ∧
      b2.games_played = pb.games_played + 1 ∧
      b2.wins = pb.wins + (if game.result = .black_win then 1 else 0) ∧
      b2.losses = pb.losses + (if game.result = .white_win then 1 else 0) ∧
      b2.draws = pb.draws +
        (if game.result = .white_win ∨ game.result = .black_win then 0 else 1) := by
  have hb2 : collGet (upsert db.profiles game.white_player_id
      (applyRatingUpdate pw (pw.rating + game.rating_change.white.getD 0)
        (if game.result = .white_win then "win"
         else if game.result = .black_win then "loss" else "draw")))
      game.black_player_id = some pb := by
    rw [collGet_upsert_other _ _ _ _ (Ne.symm hne)]
    exact hb
  refine ⟨by simp [archiveGame], ?_, ?_⟩
  · simp [archiveGame, updateRating, hw, hb2, collGet_upsert_same]
  · refine ⟨applyRatingUpdate pw (pw.rating + game.rating_change.white.getD 0)
        (if game.result = .white_win then "win"
         else if game.result = .black_win then "loss" else "draw"),
      applyRatingUpdate pb (pb.rating + game.rating_change.black.getD 0)
        (if game.result = .black_win then "win"
         else if game.result = .white_win then "loss" else "draw"),
      ?_, ?_, ?_⟩
    · simp [archiveGame, updateRating, hw, hb, hb2, collGet_upsert_same,
        collGet_upsert_other _ _ _ _ hne]
    · simp [archiveGame, updateRating, hw, hb, hb2, collGet_upsert_same]
    · rcases hres : game.result <;> simp [applyRatingUpdate, hres]

/-- C4 witness: A and B both at 1200, white_win with rating change
{white: 8, black: −8}: A ends at 1208 with a win added, B at 1192 with a
loss added. -/
theorem c4_witness :
    ∃ w2 b2 : UserProfile,
      collGet (archiveGame dbHist gameAB true true true).2.profiles "A" = some w2 ∧
      collGet (archiveGame dbHist gameAB true true true).2.profiles "B" = some b2 ∧
      w2.rating = 1208 ∧ w2.wins = 1 ∧ w2.games_played = 1 ∧
      b2.rating = 1192 ∧ b2.losses = 1 ∧ b2.games_played = 1 := by
  obtain ⟨-, -, w2, b2, hw2, hb2, hr, hg, hwin, -, -, hbr, hbg, -, hbl, -⟩ :=
    c4_archive_game_updates_profiles dbHist gameAB
      (freshProfile "A" "alice" "a@example.com")
      (freshProfile "B" "bob" "b@example.com")
      (by decide) (by decide) (by decide)
  refine ⟨w2, b2, hw2, hb2, ?_, ?_, ?_, ?_, ?_, ?_⟩ <;>
    simp_all [freshProfile, gameAB]

/-- C7: for every stored game set, uid and day window, the statistics of
`get_user_stats` satisfy wins + losses + draws ≤ total_games and
white_games + black_games = total_games. -/
theorem c7_user_stats_invariant (db : HistoryDB) (user_id : String)
    (days now : Int) :
    (getUserStats db user_id days now).wins + (getUserStats db user_id days now).losses +
        (getUserStats db user_id days now).draws ≤
      (getUserStats db user_id days now).total_games ∧
    (getUserStats db user_id days now).white_games +
        (getUserStats db user_id days now).black_games =
      (getUserStats db user_id days now).total_games := by
  have h := statsFold_inv user_id (queryUserGames db user_id (now - days * 86400))
    (initStats, 0) (by simp [StatsInv, initStats])
  have key : StatsInv (getUserStats db user_id days now) := by
    unfold getUserStats
    dsimp only
    split
    · exact ⟨h.1, h.2⟩
    · exact h
  exact key

/-- C8: `get_popular_openings` returns at most `limit` entries sorted by
occurrence count descending; over the sample (the 1000 most recent games
by end_time) the per-opening count equals the number of occurrences of
that opening (first three moves joined with spaces) and the wins field
counts games with a decisive result; on the concrete sample with opening
counts {3, 1}, the count-3 opening comes first. -/
theorem c8_popular_openings (db : HistoryDB) (limit : Nat) :
    (getPopularOpenings db limit).length ≤ limit ∧
    List.Pairwise (fun a b => b.count ≤ a.count) (getPopularOpenings db limit) ∧
    (∀ k : String,
      getCount (tallyOpenings
          ((sortByDesc (fun g => g.end_time) (db.games.map (·.2))).take 1000) []) k =
        ((sortByDesc (fun g => g.end_time) (db.games.map (·.2))).take 1000).countP
          (fun g => openingKey g = some k) ∧
      getWins (tallyOpenings
          ((sortByDesc (fun g => g.end_time) (db.games.map (·.2))).take 1000) []) k =
        ((sortByDesc (fun g => g.end_time) (db.games.map (·.2))).take 1000).countP
          (fun g => openingKey g = some k ∧ decisive g.result)) ∧
    (getPopularOpenings dbOpenings 10).map (fun s => (s.moves, s.count, s.wins)) =
      [("e4 e5 Nf3", 3, 2), ("d4 d5 c4", 1, 0)] := by
  refine ⟨?_, ?_, ?_, by decide⟩
  · simp only [getPopularOpenings]
    exact List.length_take_le limit _
  · simp only [getPopularOpenings]
    have hp := pairwise_sortByDesc (fun s : OpeningStat => (s.count : Int))
      ((tallyOpenings ((sortByDesc (fun g => g.end_time)
          (db.games.map (·.2))).take 1000) []).map
        fun p => OpeningStat.mk p.1 p.2.1 p.2.2)
    have hs := List.Pairwise.sublist (List.take_sublist limit _) hp
    exact hs.imp fun hab => by exact_mod_cast hab
  · intro k
    have h := tallyOpenings_spec
      ((sortByDesc (fun g => g.end_time) (db.games.map (·.2))).take 1000) [] k
    simpa [getCount, getWins, collGet] using h

/-! ## Session token lemmas -/

theorem collGet_append_other {α : Type} (c : Coll α) (k k₂ : String) (v : α)
    (hne : k₂ ≠ k) : collGet (c ++ [(k, v)]) k₂ = collGet c k₂ := by
  induction c with
  | nil => simp [collGet, Ne.symm hne]
  | cons p ps ih => by_cases h : p.1 = k₂ <;> simp [collGet, h, ih]

theorem collGet_setdefault_other (c : Claims) (k k₂ : String) (v : CVal)
    (hne : k₂ ≠ k) : collGet (setdefault c k v) k₂ = collGet c k₂ := by
  unfold setdefault
  split
  · rfl
  · exact collGet_append_other c k k₂ v hne

/-- C5: verify_token returns the decoded payload for a well-formed token
signed with the secret key, unexpired, and carrying a uid claim; it
fails, always with status 401, exactly when the token is malformed
(including an ill-typed exp claim), the signature key differs, the token
is expired, or the uid claim is missing; the success of verification
never depends on the audience claim; and create_tokens_for_user reports
expires_in = 3600 seconds (the 60-minute default TTL). -/
theorem c5_verify_token (t : Token) (secretKey : String) (now : Int) :
    (t.wellFormed = true → t.signingKey = secretKey →
      (∀ e : Int, collGet t.payload "exp" = some (.int e) → now ≤ e) →
      (collGet t.payload "exp" = none ∨
        ∃ e : Int, collGet t.payload "exp" = some (.int e)) →
      (collGet t.payload "uid").isSome →
      verifyToken t secretKey now = .ok t.payload) ∧
    ((∃ err, verifyToken t secretKey now = .error err ∧ err.status_code = 401) ↔
      (t.wellFormed = false ∨ t.signingKey ≠ secretKey ∨
       (∃ e : Int, collGet t.payload "exp" = some (.int e) ∧ e < now) ∨
       (∃ v, collGet t.payload "exp" = some v ∧ ∀ e : Int, v ≠ .int e) ∨
       collGet t.payload "uid" = none)) ∧
    (∀ v, (∃ p, verifyToken { t with payload := upsert t.payload "aud" v }
          secretKey now = .ok p) ↔
        (∃ p, verifyToken t secretKey now = .ok p)) ∧
    (∀ u : FirebaseUser, ∀ nw : Int, ∀ key2 : String,
      (createTokensForUser u nw key2).expires_in = 3600) := by
  refine ⟨?_, ?_, ?_, ?_⟩
  · intro hwf hkey hexp hshape huid
    rcases hshape with hnone | ⟨e, he⟩
    · simp [verifyToken, jwtDecode, hwf, hkey, hnone, huid]
    · have hlt : ¬ e < now := Int.not_lt.mpr (hexp e he)
      simp [verifyToken, jwtDecode, hwf, hkey, he, hlt, huid]
  · by_cases hwf : t.wellFormed
    · by_cases hkey : t.signingKey = secretKey
      · rcases he : collGet t.payload "exp" with _ | v
        · rcases hu : collGet t.payload "uid" with _ | u <;>
            simp [verifyToken, jwtDecode, hwf, hkey, he, hu]
        · rcases v with s | e | b | _
          · simp only [verifyToken, jwtDecode, hwf, hkey, he]
            simp [hwf, hkey, he]
          · by_cases hlt : e < now
            · simp [verifyToken, jwtDecode, hwf, hkey, he, hlt]
            · rcases hu : collGet t.payload "uid" with _ | u <;>
                simp [verifyToken, jwtDecode, hwf, hkey, he, hlt, hu]
          · simp only [verifyToken, jwtDecode, hwf, hkey, he]
            simp [hwf, hkey, he]
          · simp only [verifyToken, jwtDecode, hwf, hkey, he]
            simp [hwf, hkey, he]
      · simp [verifyToken, jwtDecode, hwf, hkey]
    · simp [verifyToken, jwtDecode, hwf]
  · intro v
    have hexp := collGet_upsert_other t.payload "aud" "exp" v (by decide)
    have huid := collGet_upsert_other t.payload "aud" "uid" v (by decide)
    by_cases hwf : t.wellFormed
    · by_cases hkey : t.signingKey = secretKey
      · rcases he : collGet t.payload "exp" with _ | w
        · rcases hu : collGet t.payload "uid" with _ | u <;>
            simp [verifyToken, jwtDecode, hwf, hkey, he, hu, hexp, huid]
        · rcases w with s | e | b | _
          · simp [verifyToken, jwtDecode, hwf, hkey, he, hexp]
          · by_cases hlt : e < now
            · simp [verifyToken, jwtDecode, hwf, hkey, he, hlt, hexp]
            · rcases hu : collGet t.payload "uid" with _ | u <;>
                simp [verifyToken, jwtDecode, hwf, hkey, he, hlt, hu, hexp, huid]
          · simp [verifyToken, jwtDecode, hwf, hkey, he, hexp]
          · simp [verifyToken, jwtDecode, hwf, hkey, he, hexp]
      · simp [verifyToken, jwtDecode, hwf, hkey]
    · simp [verifyToken, jwtDecode, hwf]
  · intro u nw key2
    rfl

/-- C5 witness: a concrete unexpired signed token verifies to its
payload, and the token response reports 3600 seconds. -/
theorem c5_witness :
    verifyToken tokUid "k" 10 = .ok tokUid.payload ∧
    (createTokensForUser { uid := "u", email := none, email_verified := none }
      0 "k").expires_in = 3600 := by
  have h := c5_verify_token tokUid "k" 10
  exact ⟨h.1 (by decide) (by decide)
      (by
        intro e he
        simp [tokUid, collGet] at he
        omega)
      (by right; exact ⟨50, by decide⟩) (by decide),
    h.2.2.2 { uid := "u", email := none, email_verified := none } 0 "k"⟩

/-- C10: decoding a freshly created access token (default TTL) with the
same secret before expiry succeeds and preserves the uid, email and
email_verified claims of the input data. -/
theorem c10_roundtrip (data : Claims) (now tnow : Int) (secretKey : String)
    (u : CVal) (huid : collGet data "uid" = some u)
    (hfresh : tnow ≤ now + 3600) :
    ∃ p, verifyToken (createAccessToken data none now secretKey) secretKey tnow = .ok p ∧
      collGet p "uid" = collGet data "uid" ∧
      collGet p "email" = collGet data "email" ∧
      collGet p "email_verified" = collGet data "email_verified" := by
  have hget : ∀ k2 : String, k2 ≠ "exp" → k2 ≠ "iat" →
      collGet (createAccessToken data none now secretKey).payload k2 =
        collGet data k2 := by
    intro k2 h1 h2
    simp only [createAccessToken]
    rw [collGet_setdefault_other _ _ _ _ h2, collGet_upsert_other _ _ _ _ h1]
  have hexp2 : collGet (setdefault (upsert data "exp"
      (CVal.int (now + ACCESS_TOKEN_EXPIRE_MINUTES * 60))) "iat" (CVal.int now)) "exp" =
      some (CVal.int (now + ACCESS_TOKEN_EXPIRE_MINUTES * 60)) := by
    rw [collGet_setdefault_other _ _ _ _ (by decide), collGet_upsert_same]
  have huid3 : collGet (setdefault (upsert data "exp"
      (CVal.int (now + ACCESS_TOKEN_EXPIRE_MINUTES * 60))) "iat" (CVal.int now)) "uid" =
      some u := by
    rw [collGet_setdefault_other _ _ _ _ (by decide),
        collGet_upsert_other _ _ _ _ (by decide)]
    exact huid
  have hlt : ¬ now + ACCESS_TOKEN_EXPIRE_MINUTES * 60 < tnow := by
    simp only [ACCESS_TOKEN_EXPIRE_MINUTES]
    omega
  refine ⟨(createAccessToken data none now secretKey).payload, ?_, ?_, ?_, ?_⟩
  · simp [verifyToken, jwtDecode, createAccessToken, hexp2, hlt, huid3]
  · rw [hget "uid" (by decide) (by decide)]
  · rw [hget "email" (by decide) (by decide)]
  · rw [hget "email_verified" (by decide) (by decide)]

/-- C10 witness: a concrete claims dict round-trips through token
creation and verification. -/
theorem c10_witness :
    ∃ p, verifyToken (createAccessToken
        [("uid", .str "u1"), ("email", .str "e@x"), ("email_verified", .bool true)]
        none 0 "k") "k" 100 = .ok p ∧
      collGet p "uid" = collGet
        [("uid", CVal.str "u1"), ("email", .str "e@x"), ("email_verified", .bool true)] "uid" ∧
      collGet p "email" = collGet
        [("uid", CVal.str "u1"), ("email", .str "e@x"), ("email_verified", .bool true)] "email" ∧
      collGet p "email_verified" = collGet
        [("uid", CVal.str "u1"), ("email", .str "e@x"), ("email_verified", .bool true)] "email_verified" := by
  exact c10_roundtrip
    [("uid", .str "u1"), ("email", .str "e@x"), ("email_verified", .bool true)]
    0 100 "k" (.str "u1") (by decide) (by decide)

/-! ## Analytics lemmas -/

theorem globalTally_whiteWins (rs : List AnalyticsRecord) :
    (globalTally rs).1 = rs.countP (fun g => g.result = .white_win) := by
  have key : ∀ acc : Nat × ℚ × Nat × Coll Nat × Coll Nat,
      (rs.foldl globalStep acc).1 =
        acc.1 + rs.countP (fun g => g.result = .white_win) := by
    induction rs with
    | nil => intro acc; simp
    | cons g gs ih =>
      intro acc
      simp only [List.foldl_cons, List.countP_cons]
      rw [ih]
      by_cases h : g.result = .white_win <;> simp [globalStep, h] <;> omega
  simpa [globalTally] using key (0, 0, 0, [], [])

/-- C6 (counterexample): with a stale cache and an empty analytics
collection, `get_global_stats` recomputes (the returned stats carry the
new `last_updated`) but does not write the recomputed stats to the
cache — the stale document stays. -/
theorem c6_counterexample :
    (getGlobalStats dbStale 3600 true).1.last_updated = 3600 ∧
    (getGlobalStats dbStale 3600 true).2.globalCache = some staleStats ∧
    staleStats.last_updated = 0 := by
  refine ⟨?_, ?_, rfl⟩ <;> rfl

/-- C6 (amended): `get_global_stats` returns the cached document
unchanged while it is less than one hour old; otherwise it recomputes
from the sample of up to 10,000 most-recent records (timestamp
descending): the returned stats carry last_updated = now, total_games is
the sample size, the white-win rate is the fraction of white wins in the
sample, and the two popularity lists have at most five entries sorted by
count descending; the recomputed stats are written to the cache only
when the sample is non-empty (with an empty sample the store is left
unchanged). -/
theorem c6_global_stats (db : AnalyticsDB) (now : Int) (okSet : Bool) :
    (∀ cached, db.globalCache = some cached → now - cached.last_updated < 3600 →
      getGlobalStats db now okSet = (cached, db)) ∧
    ((db.globalCache = none ∨
      ∃ cached, db.globalCache = some cached ∧ ¬ now - cached.last_updated < 3600) →
     ((getGlobalStats db now okSet).1.last_updated = now ∧
      (getGlobalStats db now okSet).1.total_games = (globalSample db).length ∧
      (globalSample db ≠ [] →
        (getGlobalStats db now okSet).1.white_win_rate =
          ((globalSample db).countP (fun g => g.result = .white_win) : ℚ) /
            ((globalSample db).length : ℚ)) ∧
      (globalSample db ≠ [] → okSet = true →
        (getGlobalStats db now okSet).2.globalCache =
          some (getGlobalStats db now okSet).1) ∧
      (globalSample db = [] → (getGlobalStats db now okSet).2 = db) ∧
      (getGlobalStats db now okSet).1.popular_time_controls.length ≤ 5 ∧
      (getGlobalStats db now okSet).1.popular_game_types.length ≤ 5 ∧
      List.Pairwise (fun a b : String × Nat => b.2 ≤ a.2)
        (getGlobalStats db now okSet).1.popular_time_controls ∧
      List.Pairwise (fun a b : String × Nat => b.2 ≤ a.2)
        (getGlobalStats db now okSet).1.popular_game_types)) := by
  constructor
  · intro cached hc hfresh
    simp [getGlobalStats, hc, hfresh]
  · intro hstale
    have hred : getGlobalStats db now okSet = computeGlobalStats db now okSet := by
      rcases hc : db.globalCache with _ | cached
      · simp [getGlobalStats, hc]
      · rcases hstale with h | ⟨c2, hc2, hs⟩
        · rw [hc] at h
          exact absurd h (by simp)
        · rw [hc] at hc2
          injection hc2 with e
          subst e
          simp [getGlobalStats, hc, hs]
    rw [hred]
    by_cases hsample : globalSample db = []
    · have hie : (globalSample db).isEmpty = true := by simp [hsample]
      refine ⟨?_, ?_, ?_, ?_, ?_, ?_, ?_, ?_, ?_⟩ <;>
        simp [computeGlobalStats, hie, hsample]
    · have hie : (globalSample db).isEmpty = false := by
        simpa [List.isEmpty_iff] using hsample
      have hpw1 := pairwise_sortByDesc (fun p : String × Nat => (p.2 : Int))
        (globalTally (globalSample db)).2.2.2.1
      have hpw2 := pairwise_sortByDesc (fun p : String × Nat => (p.2 : Int))
        (globalTally (globalSample db)).2.2.2.2
      refine ⟨?_, ?_, ?_, ?_, ?_, ?_, ?_, ?_, ?_⟩
      · simp [computeGlobalStats, hie]
      · simp [computeGlobalStats, hie]
      · intro hne
        simp [computeGlobalStats, hie, globalTally_whiteWins]
      · intro hne hok
        subst hok
        simp [computeGlobalStats, hie]
      · intro h
        exact absurd h hsample
      · simp only [computeGlobalStats, hie]
        exact List.length_take_le 5 _
      · simp only [computeGlobalStats, hie]
        exact List.length_take_le 5 _
      · simp only [computeGlobalStats, hie]
        exact (List.Pairwise.sublist (List.take_sublist 5 _) hpw1).imp
          fun hab => by exact_mod_cast hab
      · simp only [computeGlobalStats, hie]
        exact (List.Pairwise.sublist (List.take_sublist 5 _) hpw2).imp
          fun hab => by exact_mod_cast hab

/-- C6 witness: a cache written at time 0 and read at time 100 is
returned unchanged. -/
theorem c6_witness : getGlobalStats dbStale 100 true = (staleStats, dbStale) := by
  exact (c6_global_stats dbStale 100 true).1 staleStats rfl (by decide)

end PortalGambit
